import Mathlib

/-!
# Malecom booking platform — formal model

Shallow embedding of the booking/pricing/availability subsystem of the
Malecom vacation-rental platform:

* `backend/services/pricing.js` — `PricingService` (nightly rates, weekend
  and holiday pricing, discounts, taxes, platform fee, totals);
* `backend/routes/bookings.js` — the booking-creation handler
  (`router.post('/')`) and the cancellation handler
  (`router.put('/:id/cancel')`).

Conventions of the embedding:

* JavaScript numbers are modelled as exact rationals (`ℚ`);
  `Math.round(x * 100) / 100` becomes `round2`.
* Calendar dates are day numbers (days since 1970-01-01, `ℤ`); `moment.day()`
  becomes `dayOfWeek`; the holiday date strings become day numbers via
  `civilToDays`.
* Database state is an explicit record of row lists (`Db`); SQL queries
  become list operations; `START TRANSACTION` / `COMMIT` / `ROLLBACK` become
  "the handler returns either the updated `Db` or the original one".
* External collaborators (payment gateway, seasonal/demand queries, clock)
  are parameters of the handler environments.
-/

namespace Malecom

/-- `Math.round(x * 100) / 100` on exact rationals.  JavaScript's
`Math.round` rounds half toward positive infinity, i.e. `⌊x + 1/2⌋`. -/
def round2 (x : ℚ) : ℚ := ((⌊x * 100 + 1/2⌋ : ℤ) : ℚ) / 100

/-- Day of week of a day number (days since 1970-01-01, which was a
Thursday): 0 = Sunday … 6 = Saturday, as `moment().day()`. -/
def dayOfWeek (d : ℤ) : ℤ := (d + 4) % 7

/-- Day number of a civil date (days since 1970-01-01).  Standard
days-from-civil algorithm; all intermediate quantities are nonnegative for
the years used here. -/
def civilToDays (y m d : ℤ) : ℤ :=
  let y := if m ≤ 2 then y - 1 else y
  let era := (if 0 ≤ y then y else y - 399) / 400
  let yoe := y - era * 400
  let doy := (153 * (m + (if 2 < m then -3 else 9)) + 2) / 5 + d - 1
  let doe := yoe * 365 + yoe / 4 - yoe / 100 + doy
  era * 146097 + doe - 719468

/-- The static holiday list loaded by `PricingService.loadHolidays`
(Dominican Republic holidays, 2025), as day numbers. -/
def holidays2025 : List ℤ :=
  [civilToDays 2025 1 1,   -- New Year
   civilToDays 2025 1 6,   -- Epiphany
   civilToDays 2025 1 21,  -- Altagracia
   civilToDays 2025 2 27,  -- Independence Day
   civilToDays 2025 4 18,  -- Good Friday
   civilToDays 2025 5 1,   -- Labor Day
   civilToDays 2025 6 19,  -- Corpus Christi
   civilToDays 2025 8 16,  -- Restoration Day
   civilToDays 2025 9 24,  -- Our Lady of Mercedes
   civilToDays 2025 11 6,  -- Constitution Day
   civilToDays 2025 12 25] -- Christmas

/-- A suite row joined with its pricing rule
(`suites` ⋈ `pricing_rules` ⋈ `users`, as fetched by the handlers).
Nullable `DECIMAL` columns are `Option ℚ`; `parseFloat(null)` is `NaN`,
which is falsy, so the `|| fallback` idiom is modelled on the `Option`. -/
structure Suite where
  id : ℕ
  owner_id : ℕ
  capacity : ℤ
  is_active : Bool
  verification_status : String
  base_price : ℚ
  weekend_price : Option ℚ
  cleaning_fee : Option ℚ
  extra_guest_fee : Option ℚ
  security_deposit : Option ℚ
  currency : String
  minimum_stay : Option ℤ
  maximum_stay : Option ℤ
  country : String
  city : String
  deriving DecidableEq

/-- `parseFloat(suite.weekend_price) || basePrice`: `null` (NaN) and `0`
are both falsy, so both fall back to the base price. -/
def weekendPriceOf (s : Suite) : ℚ :=
  match s.weekend_price with
  | none => s.base_price
  | some w => if w = 0 then s.base_price else w

/-- `parseFloat(x) || 0` for the fee columns (`null` and `0` both give 0). -/
def feeOrZero (x : Option ℚ) : ℚ := x.getD 0

/-- Rate-type tag attached to each night of the breakdown. -/
inductive RateType
  | weekday
  | weekend
  | holiday
  deriving DecidableEq

/-- `PricingService.getRateType(dayOfWeek, dateStr)`: holiday first, then
Friday/Saturday, then weekday. -/
def getRateType (holidays : List ℤ) (dow : ℤ) (date : ℤ) : RateType :=
  if date ∈ holidays then .holiday
  else if dow = 5 ∨ dow = 6 then .weekend
  else .weekday

/-- The nightly rate before the seasonal and demand multipliers, exactly as
built by the per-night loop of `calculatePricing`: start from base price,
replace by weekend price on Friday/Saturday, then override (not multiply)
with `basePrice * 1.5` on a holiday. -/
def nightlyPreMultiplier (s : Suite) (holidays : List ℤ) (date : ℤ) : ℚ :=
  let dow := dayOfWeek date
  let r := s.base_price
  let r := if dow = 5 ∨ dow = 6 then weekendPriceOf s else r
  let r := if date ∈ holidays then s.base_price * (3/2) else r
  r

/-- Environment of `PricingService.calculatePricing`: the holiday cache, the
seasonal and demand multiplier queries (external reads, one per date), the
configured guest service-fee rate (`GUEST_SERVICE_FEE_RATE`, default 0.03),
`moment(checkInDate).diff(moment(), 'days')`, and the suite-age query used
by the new-property discount. -/
structure PricingEnv where
  holidays : List ℤ
  seasonalMultiplier : ℤ → ℚ
  demandMultiplier : ℤ → ℚ
  platformFeeRate : ℚ
  daysUntilCheckIn : ℤ
  propertyAgeDays : Option ℤ

/-- Full nightly rate for one date: pre-multiplier rate times seasonal
times demand multiplier. -/
def nightlyRate (env : PricingEnv) (s : Suite) (date : ℤ) : ℚ :=
  nightlyPreMultiplier s env.holidays date
    * env.seasonalMultiplier date * env.demandMultiplier date

/-- Discount tags produced by `calculateDiscounts`. -/
inductive DiscountType
  | weekly_stay
  | monthly_stay
  | early_bird
  | last_minute
  | new_property
  deriving DecidableEq

/-- One entry of the discount list. -/
structure Discount where
  type : DiscountType
  rate : ℚ
  amount : ℚ
  deriving DecidableEq

/-- `PricingService.calculateDiscounts`: sequentially pushes weekly
(≥ 7 nights, 10%), then for ≥ 28 nights pops the last entry and pushes
monthly (20%), then early-bird (≥ 30 days ahead, 5%), last-minute
(1–3 days ahead, 15%), and new-property (suite ≤ 30 days old, 10%).
Every amount is `round2(subtotal * rate)` against the same subtotal. -/
def calculateDiscounts (subtotal : ℚ) (nights : ℤ) (daysUntilCheckIn : ℤ)
    (propertyAgeDays : Option ℤ) : List Discount :=
  let ds : List Discount := []
  let ds := if 7 ≤ nights then
      ds ++ [⟨.weekly_stay, 1/10, round2 (subtotal * (1/10))⟩] else ds
  let ds := if 28 ≤ nights then
      ds.dropLast ++ [⟨.monthly_stay, 1/5, round2 (subtotal * (1/5))⟩] else ds
  let ds := if 30 ≤ daysUntilCheckIn then
      ds ++ [⟨.early_bird, 1/20, round2 (subtotal * (1/20))⟩] else ds
  let ds := if daysUntilCheckIn ≤ 3 ∧ 1 ≤ daysUntilCheckIn then
      ds ++ [⟨.last_minute, 3/20, round2 (subtotal * (3/20))⟩] else ds
  let ds := match propertyAgeDays with
    | some age =>
        if age ≤ 30 then
          ds ++ [⟨.new_property, 1/10, round2 (subtotal * (1/10))⟩] else ds
    | none => ds
  ds

/-- Analysis view of the discount list: the single length-of-stay discount
the push/pop chain of `calculateDiscounts` leaves in place (monthly for
≥ 28 nights, else weekly for ≥ 7 nights, else none). -/
def stayDiscountPart (subtotal : ℚ) (nights : ℤ) : List Discount :=
  if 28 ≤ nights then
    [⟨.monthly_stay, 1/5, round2 (subtotal * (1/5))⟩]
  else if 7 ≤ nights then
    [⟨.weekly_stay, 1/10, round2 (subtotal * (1/10))⟩]
  else []

/-- Analysis view of the discount list: the three promotional rules that
follow the length-of-stay discount. -/
def promoDiscountPart (subtotal : ℚ) (daysUntilCheckIn : ℤ)
    (propertyAgeDays : Option ℤ) : List Discount :=
  (if 30 ≤ daysUntilCheckIn then
    [⟨.early_bird, 1/20, round2 (subtotal * (1/20))⟩] else []) ++
  ((if daysUntilCheckIn ≤ 3 ∧ 1 ≤ daysUntilCheckIn then
    [⟨.last_minute, 3/20, round2 (subtotal * (3/20))⟩] else []) ++
  (match propertyAgeDays with
   | some age =>
      if age ≤ 30 then
        [⟨.new_property, 1/10, round2 (subtotal * (1/10))⟩] else []
   | none => []))

/-- `PricingService.getTaxRate(country, city)`: static table with
per-country defaults; unknown country falls back to 10%. -/
def getTaxRate (country city : String) : ℚ :=
  if country = "Dominican Republic" then
    if city = "Santo Domingo" then 18/100
    else if city = "Punta Cana" then 16/100
    else if city = "Puerto Plata" then 16/100
    else 18/100
  else if country = "United States" then
    if city = "New York" then 12/100
    else if city = "Florida" then 6/100
    else if city = "California" then 10/100
    else 8/100
  else if country = "Canada" then
    if city = "Toronto" then 13/100
    else if city = "Vancouver" then 12/100
    else 13/100
  else 1/10

/-- Sum of the raw (unrounded) nightly rates over the stay
(`totalNightlyRate` in the source). -/
def rawNightlyTotal (env : PricingEnv) (s : Suite) (a b : ℤ) : ℚ :=
  ((List.range (b - a).toNat).map (fun i => nightlyRate env s (a + i))).sum

/-- `totalExtraGuestFees = extraGuests * extraGuestFee * nights` with
`extraGuests = max(0, guestsCount - 2)`. -/
def rawExtraGuestFees (s : Suite) (g : ℤ) (a b : ℤ) : ℚ :=
  ((max 0 (g - 2) : ℤ) : ℚ) * feeOrZero s.extra_guest_fee * ((b - a : ℤ) : ℚ)

/-- Pre-discount subtotal: nightly total plus extra-guest fees. -/
def rawSubtotal (env : PricingEnv) (s : Suite) (a b g : ℤ) : ℚ :=
  rawNightlyTotal env s a b + rawExtraGuestFees s g a b

/-- The discount list the engine computes for the stay. -/
def rawDiscounts (env : PricingEnv) (s : Suite) (a b g : ℤ) : List Discount :=
  calculateDiscounts (rawSubtotal env s a b g) (b - a)
    env.daysUntilCheckIn env.propertyAgeDays

/-- `discountAmount`: sum of the discount amounts. -/
def rawDiscountTotal (env : PricingEnv) (s : Suite) (a b g : ℤ) : ℚ :=
  ((rawDiscounts env s a b g).map (fun d => d.amount)).sum

/-- `taxes = round2(taxableAmount * taxRate)` with
`taxableAmount = subtotal - discountAmount + cleaningFee`. -/
def rawTaxes (env : PricingEnv) (s : Suite) (a b g : ℤ) : ℚ :=
  round2 ((rawSubtotal env s a b g - rawDiscountTotal env s a b g
    + feeOrZero s.cleaning_fee) * getTaxRate s.country s.city)

/-- `platformFee = round2((subtotal - discountAmount) * platformFeeRate)`. -/
def rawPlatformFee (env : PricingEnv) (s : Suite) (a b g : ℤ) : ℚ :=
  round2 ((rawSubtotal env s a b g - rawDiscountTotal env s a b g)
    * env.platformFeeRate)

/-- `total = subtotal - discountAmount + cleaningFee + taxes + platformFee
+ securityDeposit` (unrounded; the returned total is `round2` of it). -/
def rawTotal (env : PricingEnv) (s : Suite) (a b g : ℤ) : ℚ :=
  rawSubtotal env s a b g - rawDiscountTotal env s a b g
    + feeOrZero s.cleaning_fee + rawTaxes env s a b g
    + rawPlatformFee env s a b g + feeOrZero s.security_deposit

/-- One entry of the per-night breakdown list. -/
structure NightEntry where
  date : ℤ
  rate : ℚ
  type : RateType
  deriving DecidableEq

/-- The `breakdown` object returned by `calculatePricing`. -/
structure Breakdown where
  nightly_rate : ℚ
  nightly_breakdown : List NightEntry
  extra_guest_fees : ℚ
  extra_guests : ℤ
  cleaning_fee : ℚ
  security_deposit : ℚ
  discounts : List Discount
  discount_total : ℚ
  taxes : ℚ
  tax_rate : ℚ
  platform_fee : ℚ
  subtotal : ℚ
  deriving DecidableEq

/-- The value returned by `calculatePricing`. -/
structure PricingResult where
  currency : String
  nights : ℤ
  breakdown : Breakdown
  total : ℚ
  total_without_deposit : ℚ
  deriving DecidableEq

/-- Errors thrown by the pricing engine. -/
inductive PricingError
  | invalidDateRange
  deriving DecidableEq

/-- `PricingService.calculatePricing({suite, checkInDate, checkOutDate,
guestsCount})` with check-in day `a` and check-out day `b`:
throws `Invalid date range` when `nights = b - a ≤ 0`, otherwise returns
the full breakdown and totals. -/
def calculatePricing (env : PricingEnv) (s : Suite) (a b g : ℤ) :
    Except PricingError PricingResult :=
  if b - a ≤ 0 then .error .invalidDateRange
  else .ok
    { currency := s.currency
      nights := b - a
      breakdown :=
        { nightly_rate := round2 (rawNightlyTotal env s a b)
          nightly_breakdown := (List.range (b - a).toNat).map (fun i =>
            { date := a + i
              rate := round2 (nightlyRate env s (a + i))
              type := getRateType env.holidays (dayOfWeek (a + i)) (a + i) })
          extra_guest_fees := round2 (rawExtraGuestFees s g a b)
          extra_guests := max 0 (g - 2)
          cleaning_fee := feeOrZero s.cleaning_fee
          security_deposit := feeOrZero s.security_deposit
          discounts := rawDiscounts env s a b g
          discount_total := round2 (rawDiscountTotal env s a b g)
          taxes := rawTaxes env s a b g
          tax_rate := getTaxRate s.country s.city
          platform_fee := rawPlatformFee env s a b g
          subtotal := round2 (rawSubtotal env s a b g) }
      total := round2 (rawTotal env s a b g)
      total_without_deposit :=
        round2 (rawTotal env s a b g - feeOrZero s.security_deposit) }

/-- A row of the `bookings` table (fields the handlers read or write). -/
structure BookingRow where
  id : ℕ
  suite_id : ℕ
  guest_id : Option ℕ
  guest_email : String
  check_in_date : ℤ
  check_out_date : ℤ
  guests_count : ℤ
  total_amount : ℚ
  booking_status : String
  payment_status : String
  canceled_at : Option ℤ
  cancellation_reason : Option String
  deriving DecidableEq

/-- A row of the `booking_payments` append-only ledger. -/
structure PaymentRow where
  booking_id : ℕ
  amount : ℚ
  payment_method : String
  payment_gateway_id : Option String
  transaction_status : String
  error_message : Option String
  deriving DecidableEq

/-- A row of the `suite_availability` block calendar. -/
structure AvailRow where
  suite_id : ℕ
  date : ℤ
  is_available : Bool
  deriving DecidableEq

/-- The relational state the two handlers touch. -/
structure Db where
  suites : List Suite
  bookings : List BookingRow
  payments : List PaymentRow
  availability : List AvailRow
  deriving DecidableEq

/-- The suite lookup of the creation handler:
`WHERE s.id = ? AND s.is_active = true AND s.verification_status =
'verified'` (joined with its pricing rule). -/
def findSuite (db : Db) (suiteId : ℕ) : Option Suite :=
  db.suites.find? (fun s =>
    s.id == suiteId && s.is_active && s.verification_status == "verified")

/-- The three-disjunct overlap condition of the conflict query, verbatim:
`(check_in_date <= checkIn AND check_out_date > checkIn) OR
 (check_in_date < checkOut AND check_out_date >= checkOut) OR
 (check_in_date >= checkIn AND check_out_date <= checkOut)`
with `s, e` the existing booking's dates and `a, b` the candidate's. -/
def sqlOverlap (s e a b : ℤ) : Bool :=
  (decide (s ≤ a) && decide (a < e)) ||
  (decide (s < b) && decide (b ≤ e)) ||
  (decide (a ≤ s) && decide (e ≤ b))

/-- Whether one existing booking row is counted by the conflict query:
same suite, `booking_status IN ('confirmed', 'pending')`, and the overlap
condition. -/
def bookingBlocks (bk : BookingRow) (suiteId : ℕ) (a b : ℤ) : Bool :=
  bk.suite_id == suiteId
    && (bk.booking_status == "confirmed" || bk.booking_status == "pending")
    && sqlOverlap bk.check_in_date bk.check_out_date a b

/-- `SELECT COUNT(*) as conflicts FROM bookings WHERE ...` of the creation
handler. -/
def conflictsCount (db : Db) (suiteId : ℕ) (a b : ℤ) : ℕ :=
  (db.bookings.filter (fun bk => bookingBlocks bk suiteId a b)).length

/-- `SELECT COUNT(*) as blocked FROM suite_availability WHERE suite_id = ?
AND date >= checkIn AND date < checkOut AND is_available = false`. -/
def blockedCount (db : Db) (suiteId : ℕ) (a b : ℤ) : ℕ :=
  (db.availability.filter (fun r =>
    r.suite_id == suiteId && decide (a ≤ r.date) && decide (r.date < b)
      && r.is_available == false)).length

/-- `if (suite.minimum_stay && ...)`: an `INT` column is truthy when
non-null and nonzero. -/
def stayTruthy : Option ℤ → Bool
  | none => false
  | some v => v != 0

/-- Body of a booking-creation request (after the express-validator
middleware has accepted it). -/
structure CreateRequest where
  suiteId : ℕ
  checkInDate : ℤ
  checkOutDate : ℤ
  guestsCount : ℤ
  guestEmail : String
  paymentMethod : String
  deriving DecidableEq

/-- Result of a successful `processPayment` call:
`{status, transactionId}` with status `'completed'` or `'pending'`. -/
structure PaymentOutcome where
  transactionId : String
  status : String
  deriving DecidableEq

/-- Environment of the creation handler: the start of the current day
(`moment().startOf('day')` as a day number), the authenticated user id if
any, the pricing environment, and the payment gateway's behaviour for this
request (`.error msg` models `processPayment` throwing). -/
structure CreateEnv where
  today : ℤ
  userId : Option ℕ
  pricingEnv : PricingEnv
  paymentOutcome : Except String PaymentOutcome

/-- The distinct rejection branches of the creation handler. -/
inductive CreateError
  | pastCheckIn
  | checkOutNotAfterCheckIn
  | maxStay365
  | suiteNotFound
  | capacityExceeded
  | minStay
  | maxStay
  | datesConflict
  | datesBlocked
  | paymentFailed (msg : String)
  | internal
  deriving DecidableEq

/-- Response of the creation handler. -/
inductive CreateResponse
  | badRequest (e : CreateError)
  | created (bookingStatus : String)
  deriving DecidableEq

/-- Id assigned to the inserted booking row (`insertId`). -/
def nextBookingId (db : Db) : ℕ :=
  (db.bookings.map (fun b => b.id)).foldr max 0 + 1

/-- The booking row inserted by the creation handler, with
`booking_status = 'pending'` and `payment_status = 'pending'`. -/
def pendingBookingRow (env : CreateEnv) (db : Db) (req : CreateRequest)
    (total : ℚ) : BookingRow :=
  { id := nextBookingId db
    suite_id := req.suiteId
    guest_id := env.userId
    guest_email := req.guestEmail
    check_in_date := req.checkInDate
    check_out_date := req.checkOutDate
    guests_count := req.guestsCount
    total_amount := total
    booking_status := "pending"
    payment_status := "pending"
    canceled_at := none
    cancellation_reason := none }

/-- `router.post('/')` of `backend/routes/bookings.js` from the date
validation onward, returning the response together with the database state
after the handler finishes.  The transaction semantics are explicit: the
booking insert, the payment-ledger insert and the status update are visible
in the final state only on the `COMMIT` path; on the payment-error path the
handler inserts a failed-payment ledger row and then executes `ROLLBACK`,
which discards both that row and the booking row, so the final state is the
original one. -/
def createBooking (env : CreateEnv) (db : Db) (req : CreateRequest) :
    CreateResponse × Db :=
  if req.checkInDate < env.today then (.badRequest .pastCheckIn, db)
  else if req.checkOutDate ≤ req.checkInDate then
    (.badRequest .checkOutNotAfterCheckIn, db)
  else if 365 < req.checkOutDate - req.checkInDate then
    (.badRequest .maxStay365, db)
  else
    match findSuite db req.suiteId with
    | none => (.badRequest .suiteNotFound, db)
    | some suite =>
      if suite.capacity < req.guestsCount then
        (.badRequest .capacityExceeded, db)
      else if stayTruthy suite.minimum_stay
          && decide (req.checkOutDate - req.checkInDate
            < suite.minimum_stay.getD 0) then
        (.badRequest .minStay, db)
      else if stayTruthy suite.maximum_stay
          && decide (suite.maximum_stay.getD 0
            < req.checkOutDate - req.checkInDate) then
        (.badRequest .maxStay, db)
      else if 0 < conflictsCount db req.suiteId req.checkInDate
          req.checkOutDate then
        (.badRequest .datesConflict, db)
      else if 0 < blockedCount db req.suiteId req.checkInDate
          req.checkOutDate then
        (.badRequest .datesBlocked, db)
      else
        match calculatePricing env.pricingEnv suite req.checkInDate
            req.checkOutDate req.guestsCount with
        | .error _ => (.badRequest .internal, db)
        | .ok pricing =>
          let row := pendingBookingRow env db req pricing.total
          match env.paymentOutcome with
          | .error msg =>
            -- INSERT of the failed booking_payments row, then ROLLBACK:
            -- the transaction discards the booking row and the ledger row.
            (.badRequest (.paymentFailed msg), db)
          | .ok pay =>
            let bookingStatus :=
              if pay.status = "completed" then "confirmed" else "pending"
            let payRow : PaymentRow :=
              { booking_id := row.id
                amount := pricing.total
                payment_method := req.paymentMethod
                payment_gateway_id := some pay.transactionId
                transaction_status := pay.status
                error_message := none }
            (.created bookingStatus,
             { db with
                bookings := db.bookings ++
                  [{ row with booking_status := bookingStatus,
                               payment_status := pay.status }]
                payments := db.payments ++ [payRow] })

/-- The authenticated user attached to the cancellation request. -/
structure User where
  userId : ℕ
  email : String
  role : String
  deriving DecidableEq

/-- Result of a successful `refundPayment` call. -/
structure RefundOutcome where
  status : String
  transactionId : Option String
  deriving DecidableEq

/-- Environment of the cancellation handler: the current time in hours
(so `checkInDate.diff(now, 'hours')` is `24 * check_in_date - nowHours`)
and the refund gateway's behaviour (`.error msg` models `refundPayment`
throwing). -/
structure CancelEnv where
  nowHours : ℤ
  refundOutcome : Except String RefundOutcome

/-- Responses of the cancellation handler. -/
inductive CancelResponse
  | notFound
  | accessDenied
  | alreadyCanceled
  | cannotCancelCompleted
  | tooLateToCancel
  | success
  deriving DecidableEq

/-- The permission check of the cancellation handler: guest by id, guest by
email, suite owner, or admin. -/
def canCancel (bk : BookingRow) (s : Suite) (u : User) : Bool :=
  bk.guest_id == some u.userId || bk.guest_email == u.email
    || s.owner_id == u.userId || u.role == "admin"

/-- `reason || null`: an empty string is falsy and stored as null. -/
def reasonOrNull : Option String → Option String
  | none => none
  | some r => if r = "" then none else some r

/-- The `UPDATE bookings SET booking_status = 'canceled', canceled_at =
CURRENT_TIMESTAMP, cancellation_reason = ? WHERE id = ?` image of a row. -/
def canceledRow (bk : BookingRow) (now : ℤ) (reason : Option String) :
    BookingRow :=
  { bk with booking_status := "canceled"
            canceled_at := some now
            cancellation_reason := reasonOrNull reason }

/-- The refund ledger row: `INSERT INTO booking_payments (booking_id,
amount, payment_method, transaction_status, error_message) VALUES
(?, -total, 'refund', refundResult.status, refundResult.transactionId)`. -/
def refundLedgerRow (bk : BookingRow) (r : RefundOutcome) : PaymentRow :=
  { booking_id := bk.id
    amount := -bk.total_amount
    payment_method := "refund"
    payment_gateway_id := none
    transaction_status := r.status
    error_message := r.transactionId }

/-- `UPDATE bookings ... WHERE id = ?` over the bookings list. -/
def updateBookingRow (db : Db) (id : ℕ) (row : BookingRow) : Db :=
  { db with bookings := db.bookings.map (fun x => if x.id = id then row else x) }

/-- `router.put('/:id/cancel')` of `backend/routes/bookings.js`: look the
booking up (joined with its suite for the owner id), check permission, the
already-canceled / completed guards, and the 24-hour policy (bypassed for
admins); then, in a transaction, mark the booking canceled and — when
payment_status is `'paid'` — attempt a refund: on a returned outcome,
append the refund ledger row and set payment_status to `'refunded'`; when
`refundPayment` throws, the error is only logged and the cancellation
commits without a ledger row. -/
def cancelBooking (env : CancelEnv) (db : Db) (u : User) (id : ℕ)
    (reason : Option String) : CancelResponse × Db :=
  match db.bookings.find? (fun b => b.id == id) with
  | none => (.notFound, db)
  | some bk =>
    match db.suites.find? (fun s => s.id == bk.suite_id) with
    | none => (.notFound, db)
    | some s =>
      if !canCancel bk s u then (.accessDenied, db)
      else if bk.booking_status = "canceled" then (.alreadyCanceled, db)
      else if bk.booking_status = "completed" then
        (.cannotCancelCompleted, db)
      else if 24 * bk.check_in_date - env.nowHours < 24 ∧ u.role ≠ "admin"
        then (.tooLateToCancel, db)
      else
        let db1 := updateBookingRow db bk.id (canceledRow bk env.nowHours reason)
        if bk.payment_status = "paid" then
          match env.refundOutcome with
          | .ok r =>
            let db2 := { db1 with
              payments := db1.payments ++ [refundLedgerRow bk r] }
            let db3 := updateBookingRow db2 bk.id
              { canceledRow bk env.nowHours reason with
                  payment_status := "refunded" }
            (.success, db3)
          | .error _ => (.success, db1)
        else (.success, db1)

/-! ### Concrete fixtures (used to evaluate the model on closed inputs) -/

/-- A verified, active suite in Santo Domingo with typical pricing rule. -/
def sampleSuite : Suite :=
  { id := 1
    owner_id := 10
    capacity := 4
    is_active := true
    verification_status := "verified"
    base_price := 250
    weekend_price := some 300
    cleaning_fee := some 75
    extra_guest_fee := some 25
    security_deposit := some 200
    currency := "USD"
    minimum_stay := none
    maximum_stay := none
    country := "Dominican Republic"
    city := "Santo Domingo" }

/-- A pricing environment with the 2025 holiday list, neutral multipliers
and the default guest service-fee rate. -/
def sampleEnv : PricingEnv :=
  { holidays := holidays2025
    seasonalMultiplier := fun _ => 1
    demandMultiplier := fun _ => 1
    platformFeeRate := 3/100
    daysUntilCheckIn := 0
    propertyAgeDays := none }

/-- A database holding just the sample suite, no bookings, no ledger. -/
def sampleDb : Db :=
  { suites := [sampleSuite], bookings := [], payments := [], availability := [] }

/-- Creation environment whose payment gateway call throws. -/
def sampleCreateEnvFail : CreateEnv :=
  { today := 20000
    userId := some 7
    pricingEnv := sampleEnv
    paymentOutcome := .error "Card declined" }

/-- A request for a two-night stay starting today (day 20000). -/
def sampleRequest : CreateRequest :=
  { suiteId := 1
    checkInDate := 20000
    checkOutDate := 20002
    guestsCount := 2
    guestEmail := "guest@example.com"
    paymentMethod := "stripe" }

/-- Same request with a 400-night range. -/
def sampleLongRequest : CreateRequest := { sampleRequest with checkOutDate := 20400 }

/-- Same request with check-out equal to check-in. -/
def sampleBadRequest : CreateRequest := { sampleRequest with checkOutDate := 20000 }

/-- Same request with check-in one day in the past. -/
def sampleEarlyRequest : CreateRequest :=
  { sampleRequest with checkInDate := 19999, checkOutDate := 20002 }

/-- A request whose check-in is in the past and whose check-out is before
its check-in. -/
def samplePastDisorderRequest : CreateRequest :=
  { sampleRequest with checkInDate := 19999, checkOutDate := 19998 }

/-- A request whose check-in is in the past and which spans 401 nights. -/
def sampleLongPastRequest : CreateRequest :=
  { sampleRequest with checkInDate := 19999, checkOutDate := 20400 }

/-- The pricing result of the sample two-night stay. -/
def samplePricingResult : PricingResult :=
  (calculatePricing sampleEnv sampleSuite 20000 20002 2).toOption.getD
    { currency := ""
      nights := 0
      breakdown :=
        { nightly_rate := 0, nightly_breakdown := [], extra_guest_fees := 0
          extra_guests := 0, cleaning_fee := 0, security_deposit := 0
          discounts := [], discount_total := 0, taxes := 0, tax_rate := 0
          platform_fee := 0, subtotal := 0 }
      total := 0
      total_without_deposit := 0 }

/-- A confirmed, paid booking for the sample suite, check-in day 20001. -/
def wBooking1 : BookingRow :=
  { id := 1
    suite_id := 1
    guest_id := some 7
    guest_email := "guest@example.com"
    check_in_date := 20001
    check_out_date := 20003
    guests_count := 2
    total_amount := 1014.5
    booking_status := "confirmed"
    payment_status := "paid"
    canceled_at := none
    cancellation_reason := none }

/-- An already-canceled booking. -/
def wBooking2 : BookingRow := { wBooking1 with id := 2, booking_status := "canceled" }

/-- A completed booking. -/
def wBooking3 : BookingRow := { wBooking1 with id := 3, booking_status := "completed" }

/-- A database with the three bookings above. -/
def wDb : Db :=
  { suites := [sampleSuite]
    bookings := [wBooking1, wBooking2, wBooking3]
    payments := []
    availability := [] }

/-- The guest who made the bookings. -/
def wUserGuest : User := { userId := 7, email := "guest@example.com", role := "client" }

/-- An administrator. -/
def wUserAdmin : User := { userId := 99, email := "admin@example.com", role := "admin" }

/-- Cancellation environment 10 hours before check-in of `wBooking1`
(refund gateway would throw, but the 24-hour guard fires first for
non-admins). -/
def wCancelEnvLate : CancelEnv :=
  { nowHours := 24 * 20001 - 10, refundOutcome := .error "gateway down" }

/-- Cancellation environment 100 hours before check-in whose refund call
throws. -/
def wCancelEnvThrow : CancelEnv :=
  { nowHours := 24 * 20001 - 100, refundOutcome := .error "gateway down" }

/-- Cancellation environment 100 hours before check-in whose refund call
returns a completed refund. -/
def wCancelEnvOk : CancelEnv :=
  { nowHours := 24 * 20001 - 100
    refundOutcome := .ok { status := "completed", transactionId := some "re_123" } }

/-! ### Helper lemmas -/

/-- Subtracting a whole number of cents commutes with two-decimal
rounding. -/
theorem round2_sub_cents (x : ℚ) (c : ℤ) :
    round2 (x - (c : ℚ) / 100) = round2 x - (c : ℚ) / 100 := by
  unfold round2
  have h : (x - (c : ℚ) / 100) * 100 + 1/2 = (x * 100 + 1/2) - (c : ℚ) := by
    ring
  rw [h, Int.floor_sub_int]
  push_cast
  ring

/-- The SQL conflict query's three-disjunct condition is exactly half-open
interval overlap, provided the existing range is well-formed and the
candidate range is non-empty. -/
theorem sqlOverlap_iff (s e a b : ℤ) (hab : a < b) (hse : s < e) :
    sqlOverlap s e a b = true ↔ (s < b ∧ a < e) := by
  simp only [sqlOverlap, Bool.or_eq_true, Bool.and_eq_true, decide_eq_true_eq]
  omega

/-- Characterization of the rows counted by the conflict query. -/
theorem bookingBlocks_iff (bk : BookingRow) (suiteId : ℕ) (a b : ℤ)
    (hab : a < b) (hse : bk.check_in_date < bk.check_out_date) :
    bookingBlocks bk suiteId a b = true ↔
      (bk.suite_id = suiteId ∧
        (bk.booking_status = "pending" ∨ bk.booking_status = "confirmed") ∧
        bk.check_in_date < b ∧ a < bk.check_out_date) := by
  simp only [bookingBlocks, Bool.and_eq_true, Bool.or_eq_true, beq_iff_eq,
    sqlOverlap_iff bk.check_in_date bk.check_out_date a b hab hse]
  constructor
  · rintro ⟨⟨h1, h2⟩, h3, h4⟩
    exact ⟨h1, h2.symm, h3, h4⟩
  · rintro ⟨h1, h2, h3, h4⟩
    exact ⟨⟨h1, h2.symm⟩, h3, h4⟩

/-- Rows whose status is `'canceled'` or `'completed'` are never counted by
the conflict query. -/
theorem bookingBlocks_false_of_status (bk : BookingRow) (suiteId : ℕ)
    (a b : ℤ)
    (h : bk.booking_status = "canceled" ∨ bk.booking_status = "completed") :
    bookingBlocks bk suiteId a b = false := by
  have hst : (bk.booking_status == "confirmed"
      || bk.booking_status == "pending") = false := by
    rcases h with h | h <;> rw [h] <;> rfl
  simp [bookingBlocks, hst]

/-- After an `UPDATE ... WHERE id = ?` the row found for that id is the
updated one (when some row with that id was found before). -/
theorem find?_map_update (l : List BookingRow) (id : ℕ) (row : BookingRow)
    (h : (l.find? (fun b => b.id == id)).isSome) (hrow : row.id = id) :
    (l.map (fun x => if x.id = id then row else x)).find?
      (fun b => b.id == id) = some row := by
  induction l with
  | nil => simp at h
  | cons a t ih =>
    by_cases ha : a.id = id
    · simp [List.find?, ha, hrow]
    · have hfa : (a.id == id) = false := by simp [ha]
      simp only [List.map_cons, List.find?, if_neg ha, hfa] at h ⊢
      exact ih h

/-! ### Claim theorems -/

/-- C4: for every night whose date is in the recognized holiday list, the
nightly rate before the seasonal and demand multipliers is `1.5 ×
base_price` — also on Fridays/Saturdays with a weekend price set, since the
holiday branch overwrites rather than multiplies the weekend rate — the
night's rate-type tag is `holiday`, and the full nightly rate is that
holiday rate times the seasonal and demand multipliers. -/
theorem holiday_overrides_weekend (env : PricingEnv) (s : Suite) (d : ℤ)
    (hd : d ∈ env.holidays) :
    nightlyPreMultiplier s env.holidays d = s.base_price * (3/2) ∧
    getRateType env.holidays (dayOfWeek d) d = .holiday ∧
    nightlyRate env s d = s.base_price * (3/2)
      * env.seasonalMultiplier d * env.demandMultiplier d := by
  refine ⟨?_, ?_, ?_⟩ <;>
    simp [nightlyPreMultiplier, getRateType, nightlyRate, hd]

/-- Witness for C4: Restoration Day 2025 (a Saturday) on the sample suite,
whose weekend price 300 differs from the 375 holiday rate. -/
theorem holiday_overrides_weekend_witness :
    civilToDays 2025 8 16 ∈ sampleEnv.holidays ∧
    (nightlyPreMultiplier sampleSuite sampleEnv.holidays (civilToDays 2025 8 16)
        = sampleSuite.base_price * (3/2) ∧
      getRateType sampleEnv.holidays (dayOfWeek (civilToDays 2025 8 16))
        (civilToDays 2025 8 16) = .holiday ∧
      nightlyRate sampleEnv sampleSuite (civilToDays 2025 8 16)
        = sampleSuite.base_price * (3/2)
          * sampleEnv.seasonalMultiplier (civilToDays 2025 8 16)
          * sampleEnv.demandMultiplier (civilToDays 2025 8 16)) :=
  ⟨by decide,
   holiday_overrides_weekend sampleEnv sampleSuite (civilToDays 2025 8 16)
     (by decide)⟩

/-- C6 (amended): a booking-creation request whose check-in day is not in
the past and whose check-out day is equal to or before its check-in day is
rejected with the invalid-date-range error and the database is unchanged —
no row written — for every database, suite, payment-gateway behaviour and
pricing state; and the pricing engine itself returns the invalid-range
error whenever the night count is not positive.  (The amendment is forced:
when the check-in is also in the past, the past-date check fires first and
the rejection carries the past-date error instead, see
`past_precedes_invalid_range`.) -/
theorem invalid_range_rejected :
    (∀ (env : CreateEnv) (db : Db) (req : CreateRequest),
      ¬ req.checkInDate < env.today →
      req.checkOutDate ≤ req.checkInDate →
      createBooking env db req = (.badRequest .checkOutNotAfterCheckIn, db)) ∧
    (∀ (penv : PricingEnv) (s : Suite) (a b g : ℤ), b - a ≤ 0 →
      calculatePricing penv s a b g = .error .invalidDateRange) := by
  constructor
  · intro env db req h1 h2
    unfold createBooking
    rw [if_neg h1, if_pos h2]
  · intro penv s a b g h
    unfold calculatePricing
    rw [if_pos h]

/-- Witness for C6: the sample request with check-out equal to check-in,
and a degenerate pricing call with zero nights. -/
theorem invalid_range_rejected_witness :
    createBooking sampleCreateEnvFail sampleDb sampleBadRequest =
      (.badRequest .checkOutNotAfterCheckIn, sampleDb) ∧
    calculatePricing sampleEnv sampleSuite 20002 20002 2 =
      .error .invalidDateRange :=
  ⟨invalid_range_rejected.1 sampleCreateEnvFail sampleDb sampleBadRequest
      (by decide) (by decide),
   invalid_range_rejected.2 sampleEnv sampleSuite 20002 20002 2 (by decide)⟩

/-- C6 counterexample: a request whose check-out is before its check-in
but whose check-in is also in the past is rejected with the past-date
error, not the invalid-date-range error the claim requires for every such
request. -/
theorem past_precedes_invalid_range :
    samplePastDisorderRequest.checkOutDate ≤
      samplePastDisorderRequest.checkInDate ∧
    createBooking sampleCreateEnvFail sampleDb samplePastDisorderRequest =
      (.badRequest .pastCheckIn, sampleDb) ∧
    CreateError.pastCheckIn ≠ CreateError.checkOutNotAfterCheckIn :=
  ⟨by decide, rfl, by decide⟩

/-- C9 (amended): a booking-creation request spanning more than 365 nights
whose dates pass the past-date and ordering checks is rejected with the
maximum-stay error and the database is unchanged, for every database —
hence before the suite lookup, so regardless of the listing's own
`maximum_stay` rule — every payment-gateway behaviour and every pricing
state.  (The amendment is forced: when the check-in is in the past, the
past-date check fires first and the rejection carries the past-date error
instead, see `past_precedes_max_stay`.) -/
theorem max_stay_cap (env : CreateEnv) (db : Db) (req : CreateRequest)
    (h1 : ¬ req.checkInDate < env.today)
    (h2 : ¬ req.checkOutDate ≤ req.checkInDate)
    (h3 : 365 < req.checkOutDate - req.checkInDate) :
    createBooking env db req = (.badRequest .maxStay365, db) := by
  unfold createBooking
  rw [if_neg h1, if_neg h2, if_pos h3]

/-- Witness for C9: a 400-night request against the sample database. -/
theorem max_stay_cap_witness :
    ¬ sampleLongRequest.checkInDate < sampleCreateEnvFail.today ∧
    ¬ sampleLongRequest.checkOutDate ≤ sampleLongRequest.checkInDate ∧
    365 < sampleLongRequest.checkOutDate - sampleLongRequest.checkInDate ∧
    createBooking sampleCreateEnvFail sampleDb sampleLongRequest =
      (.badRequest .maxStay365, sampleDb) :=
  ⟨by decide, by decide, by decide,
   max_stay_cap sampleCreateEnvFail sampleDb sampleLongRequest
     (by decide) (by decide) (by decide)⟩

/-- C9 counterexample: a 401-night request whose check-in is in the past
is rejected with the past-date error, not the maximum-stay error the claim
requires for every over-long request. -/
theorem past_precedes_max_stay :
    (365 : ℤ) < sampleLongPastRequest.checkOutDate
      - sampleLongPastRequest.checkInDate ∧
    createBooking sampleCreateEnvFail sampleDb sampleLongPastRequest =
      (.badRequest .pastCheckIn, sampleDb) ∧
    CreateError.pastCheckIn ≠ CreateError.maxStay365 :=
  ⟨by decide, rfl, by decide⟩

/-- C10: a booking-creation request whose check-in day is before the start
of the current day is rejected with the check-in-in-the-past error and the
database is unchanged, for every database, payment-gateway behaviour and
pricing state — so before any availability check, pricing computation or
database write. -/
theorem past_checkin_rejected (env : CreateEnv) (db : Db)
    (req : CreateRequest) (h : req.checkInDate < env.today) :
    createBooking env db req = (.badRequest .pastCheckIn, db) := by
  unfold createBooking
  rw [if_pos h]

/-- Witness for C10: a request checking in one day before today. -/
theorem past_checkin_rejected_witness :
    sampleEarlyRequest.checkInDate < sampleCreateEnvFail.today ∧
    createBooking sampleCreateEnvFail sampleDb sampleEarlyRequest =
      (.badRequest .pastCheckIn, sampleDb) :=
  ⟨by decide,
   past_checkin_rejected sampleCreateEnvFail sampleDb sampleEarlyRequest
     (by decide)⟩

/-- C2: for a candidate half-open range with `checkIn < checkOut` against a
database whose booking rows are well-formed (`check_in < check_out`), the
creation handler's conflict query counts at least one row — i.e. the range
is rejected as unavailable — if and only if some booking on the same
listing with status `'pending'` or `'confirmed'` satisfies
`existing.start < candidate.end ∧ existing.end > candidate.start`; and a
row whose status is `'canceled'` (or `'completed'`) is never counted. -/
theorem conflict_detection_correct (db : Db) (suiteId : ℕ) (a b : ℤ)
    (hab : a < b)
    (hwf : ∀ bk ∈ db.bookings, bk.check_in_date < bk.check_out_date) :
    (0 < conflictsCount db suiteId a b ↔
      ∃ bk ∈ db.bookings, bk.suite_id = suiteId ∧
        (bk.booking_status = "pending" ∨ bk.booking_status = "confirmed") ∧
        bk.check_in_date < b ∧ a < bk.check_out_date) ∧
    (∀ bk : BookingRow,
      bk.booking_status = "canceled" ∨ bk.booking_status = "completed" →
      bookingBlocks bk suiteId a b = false) := by
  constructor
  · rw [conflictsCount, ← List.countP_eq_length_filter, List.countP_pos_iff]
    constructor
    · rintro ⟨bk, hmem, hblk⟩
      exact ⟨bk, hmem,
        (bookingBlocks_iff bk suiteId a b hab (hwf bk hmem)).1 hblk⟩
    · rintro ⟨bk, hmem, hprop⟩
      exact ⟨bk, hmem,
        (bookingBlocks_iff bk suiteId a b hab (hwf bk hmem)).2 hprop⟩
  · intro bk h
    exact bookingBlocks_false_of_status bk suiteId a b h

/-- Witness for C2: the three-booking database; the confirmed booking
[20001, 20003) overlaps the candidate [20002, 20004). -/
theorem conflict_detection_correct_witness :
    ((20001 : ℤ) < 20004) ∧
    (∀ bk ∈ wDb.bookings, bk.check_in_date < bk.check_out_date) ∧
    ((0 < conflictsCount wDb 1 20002 20004 ↔
      ∃ bk ∈ wDb.bookings, bk.suite_id = 1 ∧
        (bk.booking_status = "pending" ∨ bk.booking_status = "confirmed") ∧
        bk.check_in_date < 20004 ∧ 20002 < bk.check_out_date) ∧
    (∀ bk : BookingRow,
      bk.booking_status = "canceled" ∨ bk.booking_status = "completed" →
      bookingBlocks bk 1 20002 20004 = false)) :=
  ⟨by decide, by decide,
   conflict_detection_correct wDb 1 20002 20004 (by decide) (by decide)⟩

/-- C3: for every pricing computation with a positive night count and a
security deposit stored with two decimals (the `DECIMAL(10,2)` column),
taxes are `round2((subtotal − discounts + cleaning_fee) × taxRate)` at the
resolved rate, the platform fee is `round2((subtotal − discounts) ×
configuredRate)`, the returned grand total is `round2(subtotal − discounts
+ cleaning_fee + taxes + platform_fee + security_deposit)`, and the
returned `total_without_deposit` equals the returned total minus the
security deposit. -/
theorem pricing_total_formula (env : PricingEnv) (s : Suite) (a b g : ℤ)
    (hab : 0 < b - a) (c : ℤ)
    (hdep : feeOrZero s.security_deposit = (c : ℚ) / 100) :
    ∀ r, calculatePricing env s a b g = .ok r →
      r.breakdown.taxes =
        round2 ((rawSubtotal env s a b g - rawDiscountTotal env s a b g
          + feeOrZero s.cleaning_fee) * getTaxRate s.country s.city) ∧
      r.breakdown.platform_fee =
        round2 ((rawSubtotal env s a b g - rawDiscountTotal env s a b g)
          * env.platformFeeRate) ∧
      r.total = round2 (rawSubtotal env s a b g
        - rawDiscountTotal env s a b g + feeOrZero s.cleaning_fee
        + r.breakdown.taxes + r.breakdown.platform_fee
        + feeOrZero s.security_deposit) ∧
      r.total_without_deposit = r.total - feeOrZero s.security_deposit := by
  intro r hr
  unfold calculatePricing at hr
  rw [if_neg (by omega)] at hr
  rw [Except.ok.injEq] at hr
  subst hr
  refine ⟨rfl, rfl, rfl, ?_⟩
  show round2 (rawTotal env s a b g - feeOrZero s.security_deposit)
    = round2 (rawTotal env s a b g) - feeOrZero s.security_deposit
  rw [hdep, round2_sub_cents]

/-- Witness for C3: the sample two-night stay (one Friday, one Saturday at
weekend price 300, cleaning 75, deposit 200, Santo Domingo tax 18%,
platform fee 3%). -/
theorem pricing_total_formula_witness :
    ((0 : ℤ) < 20002 - 20000) ∧
    feeOrZero sampleSuite.security_deposit = ((20000 : ℤ) : ℚ) / 100 ∧
    calculatePricing sampleEnv sampleSuite 20000 20002 2 =
      .ok samplePricingResult ∧
    (samplePricingResult.breakdown.taxes =
        round2 ((rawSubtotal sampleEnv sampleSuite 20000 20002 2
          - rawDiscountTotal sampleEnv sampleSuite 20000 20002 2
          + feeOrZero sampleSuite.cleaning_fee)
            * getTaxRate sampleSuite.country sampleSuite.city) ∧
      samplePricingResult.breakdown.platform_fee =
        round2 ((rawSubtotal sampleEnv sampleSuite 20000 20002 2
          - rawDiscountTotal sampleEnv sampleSuite 20000 20002 2)
            * sampleEnv.platformFeeRate) ∧
      samplePricingResult.total =
        round2 (rawSubtotal sampleEnv sampleSuite 20000 20002 2
          - rawDiscountTotal sampleEnv sampleSuite 20000 20002 2
          + feeOrZero sampleSuite.cleaning_fee
          + samplePricingResult.breakdown.taxes
          + samplePricingResult.breakdown.platform_fee
          + feeOrZero sampleSuite.security_deposit) ∧
      samplePricingResult.total_without_deposit =
        samplePricingResult.total - feeOrZero sampleSuite.security_deposit) :=
  ⟨by decide, by norm_num [feeOrZero, sampleSuite], rfl,
   pricing_total_formula sampleEnv sampleSuite 20000 20002 2 (by decide)
     20000 (by norm_num [feeOrZero, sampleSuite]) samplePricingResult rfl⟩

/-- Structural form of the discount list: the push/pop chain on the two
length-of-stay rules yields exactly one stay discount, followed by the
three independent promotional rules. -/
theorem calculateDiscounts_decompose (sub : ℚ) (n d : ℤ) (age : Option ℤ) :
    calculateDiscounts sub n d age =
      stayDiscountPart sub n ++ promoDiscountPart sub d age := by
  unfold calculateDiscounts stayDiscountPart promoDiscountPart
  rcases age with _ | v
  · by_cases h7 : 7 ≤ n <;> by_cases h28 : 28 ≤ n <;>
      by_cases h30 : 30 ≤ d <;> by_cases hlm : d ≤ 3 ∧ 1 ≤ d <;>
      simp [h7, h28, h30, hlm, List.dropLast]
  · by_cases h7 : 7 ≤ n <;> by_cases h28 : 28 ≤ n <;>
      by_cases h30 : 30 ≤ d <;> by_cases hlm : d ≤ 3 ∧ 1 ≤ d <;>
      by_cases hv : v ≤ 30 <;>
      simp [h7, h28, h30, hlm, hv, List.dropLast]

/-- Membership in an optional singleton. -/
theorem mem_ite_singleton (c : Prop) (inst : Decidable c) (x y : Discount)
    (hm : x ∈ (if c then [y] else [])) : x = y := by
  split at hm
  · simpa using hm
  · simp at hm

/-- Promotional discounts never carry a length-of-stay tag. -/
theorem promoDiscountPart_not_stay (sub : ℚ) (d : ℤ) (age : Option ℤ) :
    ∀ x ∈ promoDiscountPart sub d age,
      x.type ≠ DiscountType.weekly_stay ∧
      x.type ≠ DiscountType.monthly_stay := by
  intro x hx
  unfold promoDiscountPart at hx
  simp only [List.mem_append] at hx
  rcases hx with hx | hx | hx
  · have h := mem_ite_singleton _ _ _ _ hx
    subst h
    exact ⟨fun hc => DiscountType.noConfusion hc,
      fun hc => DiscountType.noConfusion hc⟩
  · have h := mem_ite_singleton _ _ _ _ hx
    subst h
    exact ⟨fun hc => DiscountType.noConfusion hc,
      fun hc => DiscountType.noConfusion hc⟩
  · rcases age with _ | v
    · simp at hx
    · have h := mem_ite_singleton _ _ _ _ hx
      subst h
      exact ⟨fun hc => DiscountType.noConfusion hc,
        fun hc => DiscountType.noConfusion hc⟩

/-- C5: at most one length-of-stay discount ever appears in the discount
list; a stay of 7 to 27 nights gets the 10% weekly discount and no monthly
discount; a stay of 28 or more nights gets only the 20% monthly discount
and no weekly discount. -/
theorem stay_discount_exclusive (sub : ℚ) (n d : ℤ) (age : Option ℤ) :
    ((calculateDiscounts sub n d age).filter
        (fun x => x.type == DiscountType.weekly_stay
          || x.type == DiscountType.monthly_stay)).length ≤ 1 ∧
    (7 ≤ n → n < 28 →
      (∃ x ∈ calculateDiscounts sub n d age,
        x.type = .weekly_stay ∧ x.rate = 1/10) ∧
      ∀ x ∈ calculateDiscounts sub n d age, x.type ≠ .monthly_stay) ∧
    (28 ≤ n →
      (∃ x ∈ calculateDiscounts sub n d age,
        x.type = .monthly_stay ∧ x.rate = 1/5) ∧
      ∀ x ∈ calculateDiscounts sub n d age, x.type ≠ .weekly_stay) := by
  rw [calculateDiscounts_decompose]
  refine ⟨?_, ?_, ?_⟩
  · rw [List.filter_append]
    have hz : ((promoDiscountPart sub d age).filter
        (fun x => x.type == DiscountType.weekly_stay
          || x.type == DiscountType.monthly_stay)).length = 0 := by
      rw [List.length_eq_zero, List.filter_eq_nil_iff]
      intro x hx
      have h2 := promoDiscountPart_not_stay sub d age x hx
      simp only [Bool.or_eq_true, beq_iff_eq, not_or]
      exact ⟨h2.1, h2.2⟩
    rw [List.length_append, hz]
    unfold stayDiscountPart
    split
    · simp [List.filter]
    · split <;> simp [List.filter]
  · intro h7 h28
    have hs : stayDiscountPart sub n =
        [⟨.weekly_stay, 1/10, round2 (sub * (1/10))⟩] := by
      unfold stayDiscountPart
      rw [if_neg (by omega), if_pos h7]
    rw [hs]
    constructor
    · exact ⟨⟨.weekly_stay, 1/10, round2 (sub * (1/10))⟩, by simp, rfl, rfl⟩
    · intro x hx
      simp only [List.mem_append] at hx
      rcases hx with hx | hx
      · have h := mem_ite_singleton True inferInstance x _ (by simpa using hx)
        subst h
        exact fun hc => DiscountType.noConfusion hc
      · exact (promoDiscountPart_not_stay sub d age x hx).2
  · intro h28
    have hs : stayDiscountPart sub n =
        [⟨.monthly_stay, 1/5, round2 (sub * (1/5))⟩] := by
      unfold stayDiscountPart
      rw [if_pos h28]
    rw [hs]
    constructor
    · exact ⟨⟨.monthly_stay, 1/5, round2 (sub * (1/5))⟩, by simp, rfl, rfl⟩
    · intro x hx
      simp only [List.mem_append] at hx
      rcases hx with hx | hx
      · have h := mem_ite_singleton True inferInstance x _ (by simpa using hx)
        subst h
        exact fun hc => DiscountType.noConfusion hc
      · exact (promoDiscountPart_not_stay sub d age x hx).1
/-- Witness for C5: a 7-night stay and a 28-night stay on a 600 subtotal
(with an early-bird distance of 40 days, exercising a stacked
non-stay discount). -/
theorem stay_discount_exclusive_witness :
    (((calculateDiscounts 600 7 40 none).filter
        (fun x => x.type == DiscountType.weekly_stay
          || x.type == DiscountType.monthly_stay)).length ≤ 1 ∧
      ((7:ℤ) ≤ 7 → (7:ℤ) < 28 →
        (∃ x ∈ calculateDiscounts 600 7 40 none,
          x.type = .weekly_stay ∧ x.rate = 1/10) ∧
        ∀ x ∈ calculateDiscounts 600 7 40 none,
          x.type ≠ .monthly_stay) ∧
      ((28:ℤ) ≤ 7 →
        (∃ x ∈ calculateDiscounts 600 7 40 none,
          x.type = .monthly_stay ∧ x.rate = 1/5) ∧
        ∀ x ∈ calculateDiscounts 600 7 40 none,
          x.type ≠ .weekly_stay)) ∧
    ((28:ℤ) ≤ 28 →
      (∃ x ∈ calculateDiscounts 600 28 40 none,
        x.type = .monthly_stay ∧ x.rate = 1/5) ∧
      ∀ x ∈ calculateDiscounts 600 28 40 none,
        x.type ≠ .weekly_stay) :=
  ⟨stay_discount_exclusive 600 7 40 none,
   (stay_discount_exclusive 600 28 40 none).2.2⟩

/-- C7: for every cancellation request on a booking found in the database
(with its suite): when the booking is `'pending'` or `'confirmed'`, a
cancellation with fewer than 24 hours to check-in never succeeds for a
non-admin actor and leaves the database unchanged, while an admin actor
always succeeds (the permission check admits admins unconditionally) and
the booking ends `'canceled'`; a booking already `'canceled'` or
`'completed'` is never cancelled by any actor — the handler rejects the
request and leaves the database unchanged. -/
theorem cancellation_policy (env : CancelEnv) (db : Db) (u : User) (id : ℕ)
    (reason : Option String) (bk : BookingRow) (s : Suite)
    (hbk : db.bookings.find? (fun b => b.id == id) = some bk)
    (hs : db.suites.find? (fun x => x.id == bk.suite_id) = some s) :
    ((bk.booking_status = "pending" ∨ bk.booking_status = "confirmed") →
      (24 * bk.check_in_date - env.nowHours < 24 → u.role ≠ "admin" →
        (cancelBooking env db u id reason).1 ≠ .success ∧
        (cancelBooking env db u id reason).2 = db) ∧
      (u.role = "admin" →
        (cancelBooking env db u id reason).1 = .success ∧
        ((cancelBooking env db u id reason).2.bookings.find?
            (fun b => b.id == id)).map (fun r => r.booking_status) =
          some "canceled")) ∧
    (bk.booking_status = "canceled" →
      (cancelBooking env db u id reason).1 ≠ .success ∧
      (cancelBooking env db u id reason).2 = db) ∧
    (bk.booking_status = "completed" →
      (cancelBooking env db u id reason).1 ≠ .success ∧
      (cancelBooking env db u id reason).2 = db) := by
  have hid : bk.id = id := by
    have h := List.find?_some hbk
    simpa using h
  have hsome : (db.bookings.find? (fun b => b.id == id)).isSome := by
    rw [hbk]; rfl
  refine ⟨fun hst => ⟨?_, ?_⟩, ?_, ?_⟩
  · intro hlate hrole
    have h1 : ¬ bk.booking_status = "canceled" := by
      rcases hst with h | h <;> rw [h] <;> decide
    have h2 : ¬ bk.booking_status = "completed" := by
      rcases hst with h | h <;> rw [h] <;> decide
    by_cases hperm : canCancel bk s u = true
    · constructor <;>
        simp [cancelBooking, hbk, hs, hperm, h1, h2, hlate, hrole]
    · have hperm' : canCancel bk s u = false := by
        revert hperm
        cases canCancel bk s u <;> simp
      constructor <;> simp [cancelBooking, hbk, hs, hperm']
  · intro hadmin
    have hperm : canCancel bk s u = true := by
      simp [canCancel, hadmin]
    have h1 : ¬ bk.booking_status = "canceled" := by
      rcases hst with h | h <;> rw [h] <;> decide
    have h2 : ¬ bk.booking_status = "completed" := by
      rcases hst with h | h <;> rw [h] <;> decide
    have hguard :
        ¬ (24 * bk.check_in_date - env.nowHours < 24 ∧ u.role ≠ "admin") := by
      rintro ⟨_, hr⟩
      exact hr hadmin
    have hupd1 := find?_map_update db.bookings id
      (canceledRow bk env.nowHours reason) hsome hid
    by_cases hpaid : bk.payment_status = "paid"
    · cases henv : env.refundOutcome with
      | error e =>
        constructor
        · simp [cancelBooking, hbk, hs, hperm, h1, h2, hguard, hpaid, henv]
        · simp only [cancelBooking, hbk, hs, hperm, Bool.not_true,
            Bool.false_eq_true, if_false, if_neg h1, if_neg h2,
            if_neg hguard, if_pos hpaid, henv, updateBookingRow, hid]
          rw [hupd1]
          simp [canceledRow]
      | ok r =>
        have hsome2 : ((db.bookings.map (fun x =>
            if x.id = id then canceledRow bk env.nowHours reason else x)).find?
              (fun b => b.id == id)).isSome := by
          rw [hupd1]; rfl
        have hupd2 := find?_map_update
          (db.bookings.map (fun x =>
            if x.id = id then canceledRow bk env.nowHours reason else x)) id
          { canceledRow bk env.nowHours reason with
              payment_status := "refunded" } hsome2 hid
        constructor
        · simp [cancelBooking, hbk, hs, hperm, h1, h2, hguard, hpaid, henv]
        · simp only [cancelBooking, hbk, hs, hperm, Bool.not_true,
            Bool.false_eq_true, if_false, if_neg h1, if_neg h2,
            if_neg hguard, if_pos hpaid, henv, updateBookingRow, hid]
          rw [hupd2]
          simp [canceledRow]
    · constructor
      · simp [cancelBooking, hbk, hs, hperm, h1, h2, hguard, hpaid]
      · simp only [cancelBooking, hbk, hs, hperm, Bool.not_true,
          Bool.false_eq_true, if_false, if_neg h1, if_neg h2,
          if_neg hguard, if_neg hpaid, updateBookingRow, hid]
        rw [hupd1]
        simp [canceledRow]
  · intro h
    by_cases hperm : canCancel bk s u = true
    · constructor <;> simp [cancelBooking, hbk, hs, hperm, h]
    · have hperm' : canCancel bk s u = false := by
        revert hperm
        cases canCancel bk s u <;> simp
      constructor <;> simp [cancelBooking, hbk, hs, hperm']
  · intro h
    have h1 : ¬ bk.booking_status = "canceled" := by rw [h]; decide
    by_cases hperm : canCancel bk s u = true
    · constructor <;> simp [cancelBooking, hbk, hs, hperm, h, h1]
    · have hperm' : canCancel bk s u = false := by
        revert hperm
        cases canCancel bk s u <;> simp
      constructor <;> simp [cancelBooking, hbk, hs, hperm']

/-- Witness for C7: on the three-booking database, the guest is rejected
10 hours before check-in, the admin succeeds at the same moment, and the
canceled/completed bookings are rejected. -/
theorem cancellation_policy_witness :
    ((cancelBooking wCancelEnvLate wDb wUserGuest 1 none).1 ≠ .success ∧
      (cancelBooking wCancelEnvLate wDb wUserGuest 1 none).2 = wDb) ∧
    ((cancelBooking wCancelEnvLate wDb wUserAdmin 1 none).1 = .success ∧
      ((cancelBooking wCancelEnvLate wDb wUserAdmin 1 none).2.bookings.find?
          (fun b => b.id == 1)).map (fun r => r.booking_status) =
        some "canceled") ∧
    ((cancelBooking wCancelEnvLate wDb wUserGuest 2 none).1 ≠ .success ∧
      (cancelBooking wCancelEnvLate wDb wUserGuest 2 none).2 = wDb) ∧
    ((cancelBooking wCancelEnvLate wDb wUserGuest 3 none).1 ≠ .success ∧
      (cancelBooking wCancelEnvLate wDb wUserGuest 3 none).2 = wDb) :=
  ⟨((cancellation_policy wCancelEnvLate wDb wUserGuest 1 none wBooking1
      sampleSuite rfl rfl).1 (Or.inr rfl)).1 (by decide) (by decide),
   ((cancellation_policy wCancelEnvLate wDb wUserAdmin 1 none wBooking1
      sampleSuite rfl rfl).1 (Or.inr rfl)).2 rfl,
   (cancellation_policy wCancelEnvLate wDb wUserGuest 2 none wBooking2
      sampleSuite rfl rfl).2.1 rfl,
   (cancellation_policy wCancelEnvLate wDb wUserGuest 3 none wBooking3
      sampleSuite rfl rfl).2.2 rfl⟩

/-- C8 counterexample: a permitted, in-time cancellation of a paid booking
whose refund call throws.  The cancellation succeeds and the booking is
canceled, but the payment ledger is unchanged — the refund attempt's
outcome is NOT recorded as an additional payment-ledger row, contrary to
the claim. -/
theorem refund_throw_not_recorded :
    wBooking1.payment_status = "paid" ∧
    canCancel wBooking1 sampleSuite wUserGuest = true ∧
    ¬ (24 * wBooking1.check_in_date - wCancelEnvThrow.nowHours < 24) ∧
    (cancelBooking wCancelEnvThrow wDb wUserGuest 1 none).1 = .success ∧
    ((cancelBooking wCancelEnvThrow wDb wUserGuest 1 none).2.bookings.find?
        (fun b => b.id == 1)).map (fun r => r.booking_status) =
      some "canceled" ∧
    (cancelBooking wCancelEnvThrow wDb wUserGuest 1 none).2.payments =
      wDb.payments := by
  refine ⟨rfl, rfl, by decide, rfl, rfl, rfl⟩

/-- C8 (amended): for every permitted, in-time (or admin) cancellation of a
booking whose payment_status is `'paid'`, the cancellation always succeeds
with the booking marked `'canceled'` and the cancellation time and reason
recorded; when the refund call returns an outcome, that outcome is recorded
as an additional payment-ledger row and the booking's payment status
becomes `'refunded'`; when the refund call throws, no ledger row is
recorded (the failure is only logged) and the ledger is unchanged. -/
theorem cancellation_refund_behaviour (env : CancelEnv) (db : Db) (u : User)
    (id : ℕ) (reason : Option String) (bk : BookingRow) (s : Suite)
    (hbk : db.bookings.find? (fun b => b.id == id) = some bk)
    (hs : db.suites.find? (fun x => x.id == bk.suite_id) = some s)
    (hperm : canCancel bk s u = true)
    (hst : bk.booking_status = "pending" ∨ bk.booking_status = "confirmed")
    (hontime :
      ¬ (24 * bk.check_in_date - env.nowHours < 24 ∧ u.role ≠ "admin"))
    (hpaid : bk.payment_status = "paid") :
    (∀ msg, env.refundOutcome = .error msg →
      (cancelBooking env db u id reason).1 = .success ∧
      (cancelBooking env db u id reason).2.payments = db.payments ∧
      (cancelBooking env db u id reason).2.bookings.find?
          (fun b => b.id == id) =
        some (canceledRow bk env.nowHours reason)) ∧
    (∀ r, env.refundOutcome = .ok r →
      (cancelBooking env db u id reason).1 = .success ∧
      (cancelBooking env db u id reason).2.payments =
        db.payments ++ [refundLedgerRow bk r] ∧
      (cancelBooking env db u id reason).2.bookings.find?
          (fun b => b.id == id) =
        some { canceledRow bk env.nowHours reason with
                 payment_status := "refunded" }) := by
  have hid : bk.id = id := by
    have h := List.find?_some hbk
    simpa using h
  have hsome : (db.bookings.find? (fun b => b.id == id)).isSome := by
    rw [hbk]; rfl
  have h1 : ¬ bk.booking_status = "canceled" := by
    rcases hst with h | h <;> rw [h] <;> decide
  have h2 : ¬ bk.booking_status = "completed" := by
    rcases hst with h | h <;> rw [h] <;> decide
  have hupd1 := find?_map_update db.bookings id
    (canceledRow bk env.nowHours reason) hsome hid
  constructor
  · intro msg henv
    refine ⟨?_, ?_, ?_⟩
    · simp [cancelBooking, hbk, hs, hperm, h1, h2, hontime, hpaid, henv]
    · simp [cancelBooking, hbk, hs, hperm, h1, h2, hontime, hpaid, henv,
        updateBookingRow]
    · simp only [cancelBooking, hbk, hs, hperm, Bool.not_true,
        Bool.false_eq_true, if_false, if_neg h1, if_neg h2,
        if_neg hontime, if_pos hpaid, henv, updateBookingRow, hid]
      rw [hupd1]
  · intro r henv
    have hsome2 : ((db.bookings.map (fun x =>
        if x.id = id then canceledRow bk env.nowHours reason else x)).find?
          (fun b => b.id == id)).isSome := by
      rw [hupd1]; rfl
    have hupd2 := find?_map_update
      (db.bookings.map (fun x =>
        if x.id = id then canceledRow bk env.nowHours reason else x)) id
      { canceledRow bk env.nowHours reason with
          payment_status := "refunded" } hsome2 hid
    refine ⟨?_, ?_, ?_⟩
    · simp [cancelBooking, hbk, hs, hperm, h1, h2, hontime, hpaid, henv]
    · simp [cancelBooking, hbk, hs, hperm, h1, h2, hontime, hpaid, henv,
        updateBookingRow]
    · simp only [cancelBooking, hbk, hs, hperm, Bool.not_true,
        Bool.false_eq_true, if_false, if_neg h1, if_neg h2,
        if_neg hontime, if_pos hpaid, henv, updateBookingRow, hid]
      rw [hupd2]

/-- Witness for the amended C8: the paid confirmed booking cancelled by its
guest 100 hours ahead, once with a throwing refund gateway and once with a
completed refund. -/
theorem cancellation_refund_behaviour_witness :
    ((cancelBooking wCancelEnvThrow wDb wUserGuest 1 none).1 = .success ∧
      (cancelBooking wCancelEnvThrow wDb wUserGuest 1 none).2.payments =
        wDb.payments ∧
      (cancelBooking wCancelEnvThrow wDb wUserGuest 1 none).2.bookings.find?
          (fun b => b.id == 1) =
        some (canceledRow wBooking1 wCancelEnvThrow.nowHours none)) ∧
    ((cancelBooking wCancelEnvOk wDb wUserGuest 1 none).1 = .success ∧
      (cancelBooking wCancelEnvOk wDb wUserGuest 1 none).2.payments =
        wDb.payments ++ [refundLedgerRow wBooking1
          { status := "completed", transactionId := some "re_123" }] ∧
      (cancelBooking wCancelEnvOk wDb wUserGuest 1 none).2.bookings.find?
          (fun b => b.id == 1) =
        some { canceledRow wBooking1 wCancelEnvOk.nowHours none with
                 payment_status := "refunded" }) :=
  ⟨(cancellation_refund_behaviour wCancelEnvThrow wDb wUserGuest 1 none
      wBooking1 sampleSuite rfl rfl rfl (Or.inr rfl) (by decide) rfl).1
      "gateway down" rfl,
   (cancellation_refund_behaviour wCancelEnvOk wDb wUserGuest 1 none
      wBooking1 sampleSuite rfl rfl rfl (Or.inr rfl) (by decide) rfl).2
      { status := "completed", transactionId := some "re_123" } rfl⟩

/-- C1: concrete evaluation of the creation handler at a request that
passes every validation and availability check but whose payment charge
throws.  The handler answers with the payment-failure error, but the
final database equals the initial one — the `ROLLBACK` discards both the
booking row and the failed-payment ledger row, so no booking is persisted
in a `pending`/`failed` state. -/
theorem payment_failure_discards_booking :
    createBooking sampleCreateEnvFail sampleDb sampleRequest =
      (.badRequest (.paymentFailed "Card declined"), sampleDb) ∧
    sampleDb.bookings = [] ∧
    sampleDb.payments = [] :=
  ⟨rfl, rfl, rfl⟩

end Malecom
